import Mathlib

/-!
Verification of the authorization / identity-reconciliation core of the
adaMedical backend.

Part 1 models the permission resolver of `app/auth/permissions.py`:
the static role → pattern-list configuration, wildcard pattern expansion,
and the permission decision made by the `permission_required` decorator.

Part 2 models the SSO identity reconciler of `app/auth/services.py`
(`AuthService.process_google_auth` and its helpers), with the account
store modelled as a list of user records.
-/

namespace AdaMedical

/-- Python `s.startswith(pre)`: structural-recursion form so the kernel
can evaluate it. -/
def strStartsWith (s pre : String) : Bool :=
  pre.data.isPrefixOf s.data

/-- Python `s.endswith(suffix)`: structural-recursion form so the kernel
can evaluate it. -/
def strEndsWith (s suffix : String) : Bool :=
  suffix.data.isSuffixOf s.data

/-- Python `s.split(sep)` on a character separator, over the character
list: always returns a non-empty list of groups. -/
def splitCharsOn (sep : Char) : List Char → List (List Char)
  | [] => [[]]
  | c :: cs =>
      match splitCharsOn sep cs with
      | [] => [[]]
      | g :: gs => if c = sep then [] :: g :: gs else (c :: g) :: gs

/-- Python `s.split('.')[i]` (with an empty-string default where Python
would raise IndexError; every use below is guarded so the index exists). -/
def splitDotField (s : String) (i : Nat) : String :=
  ⟨(splitCharsOn '.' s.data).getD i []⟩

/-- The known resource universe, from the list literal inside
`Permission.expand_permissions` (permissions.py line 50). -/
def knownResources : List String :=
  ["users", "products", "inventory", "orders", "invoices", "contacts",
   "organizations", "payments"]

/-- The known action universe, from the list literal inside
`Permission.expand_permissions` (permissions.py line 51). -/
def knownActions : List String :=
  ["view", "edit", "create", "delete"]

/-- `all_permissions` of `Permission.expand_permissions` (permissions.py
lines 48-52): the resource-major cross product comprehension. -/
def all_permissions : List String :=
  (knownResources.map (fun resource =>
    knownActions.map (fun action => resource ++ "." ++ action))).flatten

/-- The body of the pattern loop of `Permission.expand_permissions`
(permissions.py lines 55-69) for a single pattern: the set of concrete
permissions the pattern contributes to `expanded`. -/
def expandOne (pattern : String) : Finset String :=
  if pattern = "*.*" then
    all_permissions.toFinset
  else if strEndsWith pattern ".*" then
    (all_permissions.filter
      (fun p => strStartsWith p (splitDotField pattern 0 ++ "."))).toFinset
  else if strStartsWith pattern "*." then
    (all_permissions.filter
      (fun p => strEndsWith p ("." ++ splitDotField pattern 1))).toFinset
  else
    {pattern}

/-- `Permission.expand_permissions` (permissions.py lines 45-71): the union
of the contributions of every pattern in the list. -/
def expand_permissions (permission_patterns : List String) : Finset String :=
  permission_patterns.foldr (fun pattern acc => expandOne pattern ∪ acc) ∅

/-- The expansion loop applied to a set of patterns (the Python function
iterates over an arbitrary collection; applied to a set this is the union
of the per-pattern contributions over the set's elements). -/
def expandSet (patterns : Finset String) : Finset String :=
  patterns.biUnion expandOne

/-- `Permission.ROLE_PERMISSIONS` (permissions.py lines 25-43): the static
role-name → pattern-list configuration table. -/
def ROLE_PERMISSIONS : List (String × List String) :=
  [("Admin",
     ["users.*", "products.*", "inventory.*", "orders.*",
      "invoices.*", "contacts.*", "organizations.*"]),
   ("Sales",
     ["*.view", "orders.*", "contacts.*", "organizations.*"]),
   ("Operations",
     ["*.view", "inventory.*", "products.view", "orders.view", "orders.edit"]),
   ("Accounts",
     ["*.view", "invoices.*", "payments.*"])]

/-- `Permission.get_role_permissions` (permissions.py lines 73-79): empty
set for a role name absent from the table, otherwise the expansion of the
role's declared patterns. -/
def get_role_permissions (role_name : String) : Finset String :=
  match ROLE_PERMISSIONS.find? (fun rp => rp.1 == role_name) with
  | none => ∅
  | some rp => expand_permissions rp.2

/-- The permission decision of the `permission_required` decorator
(permissions.py lines 109-118), for an active user with a role: allow
when the role name is exactly the string Admin (line 110), otherwise
allow exactly when the required permission is in the expansion of the
role's declared patterns (lines 114-117). -/
def grants (role_name permission : String) : Bool :=
  role_name == "Admin" || decide (permission ∈ get_role_permissions role_name)

/-- Python `s.lower()` (case normalization), in structural-recursion form
so the kernel can evaluate it. -/
def strToLower (s : String) : String :=
  ⟨s.data.map Char.toLower⟩

/-- The coarse administrator classification of `CurrencyList.get`
(currencies/routes.py line 62): role name in the literal list
`['Admin', 'Administrator', 'Admininstrator']`. -/
def isAdminFuzzy (role_name : String) : Bool :=
  ["Admin", "Administrator", "Admininstrator"].contains role_name

/-! ### Spec-side statement of pattern expansion (for the refinement claim)

The following definitions follow the spec's words, to be compared with
`expand_permissions` above: for `*.*` the full cross-product of known
resources and known actions; for `r.*` the permission `r.a` for every
known action `a`; for `*.a` the permission `r.a` for every known
resource `r`; any other literal verbatim. -/

/-- Python-style `s[:-n]` (drop the last `n` characters), in
structural-recursion form so the kernel can evaluate it. -/
def strDropRight (s : String) (n : Nat) : String :=
  ⟨s.data.take (s.data.length - n)⟩

/-- Python-style `s[n:]` (drop the first `n` characters), in
structural-recursion form so the kernel can evaluate it. -/
def strDrop (s : String) (n : Nat) : String :=
  ⟨s.data.drop n⟩

/-- Spec-side contribution of one pattern (written from the spec's words,
not from the source). -/
def specExpandOne (pattern : String) : Finset String :=
  if pattern = "*.*" then
    ((knownResources.map (fun r =>
      knownActions.map (fun a => r ++ "." ++ a))).flatten).toFinset
  else if strEndsWith pattern ".*" then
    (knownActions.map (fun a => strDropRight pattern 2 ++ "." ++ a)).toFinset
  else if strStartsWith pattern "*." then
    (knownResources.map (fun r => r ++ "." ++ strDrop pattern 2)).toFinset
  else
    {pattern}

/-- Spec-side expansion of a pattern list: union of the per-pattern
contributions. -/
def specExpand (patterns : List String) : Finset String :=
  patterns.foldr (fun pattern acc => specExpandOne pattern ∪ acc) ∅

/-- A pattern over the known resource and action universes: `*.*`, `r.*`
with `r` a known resource, `*.a` with `a` a known action, or any literal
that is not of wildcard shape. -/
def WellFormedPattern (p : String) : Prop :=
  p = "*.*" ∨
  (∃ r ∈ knownResources, p = r ++ ".*") ∨
  (∃ a ∈ knownActions, p = "*." ++ a) ∨
  (p ≠ "*.*" ∧ strEndsWith p ".*" = false ∧ strStartsWith p "*." = false)

instance (p : String) : Decidable (WellFormedPattern p) := by
  unfold WellFormedPattern
  exact inferInstance

/-! ### Identity reconciler (`app/auth/services.py`)

`AuthService.process_google_auth` and its helpers `_create_sso_user` and
`_update_user_sso_data`, with the account store modelled as a list of
user records and the ORM/session collaborators elided. -/

/-- `Role` of `app/users/models.py` (lines 34-38). -/
structure Role where
  id : Nat
  name : String
deriving DecidableEq, Repr

/-- `User` of `app/users/models.py` (lines 43-54); the role foreign key is
modelled as the optional role record itself. -/
structure User where
  id : Nat
  name : String
  email : String
  password_hash : Option String
  google_sso_id : Option String
  role : Option Role
  is_active : Bool
  currency_context : String
deriving DecidableEq, Repr

/-- Python truthiness of an optional string column (None and the empty
string are falsy). -/
def pyTruthyOpt : Option String → Bool
  | none => false
  | some s => s ≠ ""

/-- The extracted Google user-info fields (services.py lines 40-42):
`sub`, `email` and `name` claims, each possibly absent. -/
structure Assertion where
  sub : Option String
  email : Option String
  name : Option String
deriving DecidableEq, Repr

/-- The failures `process_google_auth` can surface, plus the
`ConflictError` of `app/core/errors.py` (used to state the spec's
ambiguous-identity behavior). -/
inductive AuthError
  | badRequest
  | forbidden
  | conflict
deriving DecidableEq, Repr

deriving instance DecidableEq for Except

/-- services.py line 42: the display name is the `name` claim, defaulting
to the local part of the email (or the literal User when the email is
falsy). -/
def resolveName (nameClaim emailClaim : Option String) : String :=
  match nameClaim with
  | some n => n
  | none =>
      match emailClaim with
      | some e => if e ≠ "" then ⟨(splitCharsOn '@' e.data).headD []⟩ else "User"
      | none => "User"

/-- services.py lines 47-52: find the user by email first; only when that
finds nothing and the Google id is truthy, find by Google SSO id. -/
def findUserByEmailThenSso (store : List User) (email : String)
    (google_id : Option String) : Option User :=
  match store.find? (fun u => u.email == email) with
  | some u => some u
  | none =>
      if pyTruthyOpt google_id then
        store.find? (fun u => u.google_sso_id == google_id)
      else
        none

/-- `AuthService._create_sso_user` (services.py lines 66-93): the record
built for a brand-new SSO user. `default_role` is the result of the
`get_or_create_default_role` collaborator (`none` when role resolution
failed, in which case the user is created roleless). -/
def createSsoUser (email name : String) (google_id : Option String)
    (default_role : Option Role) (default_currency : String)
    (next_id : Nat) : User :=
  { id := next_id
    name := name
    email := email
    password_hash := none
    google_sso_id := google_id
    role := default_role
    is_active := true
    currency_context := default_currency }

/-- services.py lines 99-103: update the email when the account already
has a truthy SSO id and the email changed in Google. -/
def updateEmailStep (user : User) (email : String) : User :=
  if pyTruthyOpt user.google_sso_id && (user.email != email) then
    { user with email := email }
  else user

/-- services.py lines 105-108: link the Google id when the account has no
truthy SSO id and the asserted id is truthy. -/
def linkSsoStep (user : User) (google_id : Option String) : User :=
  if !(pyTruthyOpt user.google_sso_id) && pyTruthyOpt google_id then
    { user with google_sso_id := google_id }
  else user

/-- services.py lines 110-113: reactivate the account when inactive. -/
def reactivateStep (user : User) : User :=
  if !user.is_active then { user with is_active := true } else user

/-- `AuthService._update_user_sso_data` (services.py lines 95-124): the
three update blocks in source order (the commit of the session is
persistence glue and is elided). -/
def updateUserSsoData (user : User) (email : String)
    (google_id : Option String) : User :=
  reactivateStep (linkSsoStep (updateEmailStep user email) google_id)

/-- `AuthService.process_google_auth` (services.py lines 30-64) from the
point where the user-info claims have been extracted: raise BadRequest on
a falsy email, look the user up (email first, then SSO id), create or
update, and raise Forbidden when the resulting account is inactive.
Returns the account together with the resulting store. -/
def processGoogleAuth (a : Assertion) (store : List User)
    (default_role : Option Role) (default_currency : String)
    (next_id : Nat) : Except AuthError (User × List User) :=
  match a.email with
  | none => .error .badRequest
  | some email =>
      if email = "" then .error .badRequest
      else
        match findUserByEmailThenSso store email a.sub with
        | none =>
            let u := createSsoUser email (resolveName a.name a.email) a.sub
              default_role default_currency next_id
            if !u.is_active then .error .forbidden
            else .ok (u, store ++ [u])
        | some u =>
            let u2 := updateUserSsoData u email a.sub
            if !u2.is_active then .error .forbidden
            else .ok (u2, store.map (fun v => if v.id == u.id then u2 else v))

/-! ### Concrete sample records used by counterexamples and witnesses -/

/-- A sample default role. -/
def roleUser : Role :=
  { id := 7, name := "User" }

/-- A sample account with no provider id linked. -/
def alice : User :=
  { id := 1, name := "Alice", email := "a@x.com", password_hash := some "pw-hash",
    google_sso_id := none, role := some roleUser, is_active := true,
    currency_context := "SGD" }

/-- A sample account with the provider id `g-1` linked. -/
def bob : User :=
  { id := 2, name := "Bob", email := "b@x.com", password_hash := none,
    google_sso_id := some "g-1", role := none, is_active := true,
    currency_context := "IDR" }

/-- The inactive variant of `alice`. -/
def aliceInactive : User :=
  { alice with is_active := false }

/-- A sample assertion carrying both an email and a provider subject
id. -/
def googleAssertion : Assertion :=
  { sub := some "g-1", email := some "a@x.com", name := some "Alice G" }

/-! ## Lemmas about pattern expansion -/

theorem expand_permissions_cons (p : String) (ps : List String) :
    expand_permissions (p :: ps) = expandOne p ∪ expand_permissions ps := rfl

theorem mem_expand_permissions (x : String) (ps : List String) :
    x ∈ expand_permissions ps ↔ ∃ p ∈ ps, x ∈ expandOne p := by
  induction ps with
  | nil => simp [expand_permissions]
  | cons p ps ih =>
      rw [expand_permissions_cons, Finset.mem_union, ih]
      simp [List.mem_cons, or_and_right, exists_or]

/-- Every concrete permission of the cross-product universe re-expands
verbatim to itself. -/
theorem all_permissions_literal :
    ∀ x ∈ all_permissions, expandOne x = {x} := by decide

/-- Everything the expansion loop produces is a literal that re-expands
to exactly itself. -/
theorem expandOne_self_of_mem {p x : String} (hx : x ∈ expandOne p) :
    expandOne x = {x} := by
  unfold expandOne at hx
  split at hx
  · exact all_permissions_literal x (List.mem_toFinset.mp hx)
  · split at hx
    · exact all_permissions_literal x (List.mem_filter.mp (List.mem_toFinset.mp hx)).1
    · split at hx
      · exact all_permissions_literal x (List.mem_filter.mp (List.mem_toFinset.mp hx)).1
      · rename_i h1 h2 h3
        rw [Finset.mem_singleton] at hx
        subst hx
        simp [expandOne, h1, h2, h3]

/-- On any pattern over the known universes, the source's expansion of one
pattern agrees with the spec's description of it. -/
theorem expandOne_wf_eq (p : String) (hp : WellFormedPattern p) :
    expandOne p = specExpandOne p := by
  rcases hp with h | ⟨r, hr, h⟩ | ⟨a, ha, h⟩ | ⟨h1, h2, h3⟩
  · subst h; decide
  · subst h
    simp only [knownResources, List.mem_cons, List.not_mem_nil, or_false] at hr
    rcases hr with rfl | rfl | rfl | rfl | rfl | rfl | rfl | rfl <;> decide
  · subst h
    simp only [knownActions, List.mem_cons, List.not_mem_nil, or_false] at ha
    rcases ha with rfl | rfl | rfl | rfl <;> decide
  · simp [expandOne, specExpandOne, h1, h2, h3]

/-- On any list of patterns over the known universes, the source's
expansion agrees with the spec's description. -/
theorem expand_eq_spec (ps : List String)
    (h : ∀ p ∈ ps, WellFormedPattern p) :
    expand_permissions ps = specExpand ps := by
  induction ps with
  | nil => rfl
  | cons p ps ih =>
      have hp := h p (List.mem_cons_self p ps)
      have hps : ∀ q ∈ ps, WellFormedPattern q :=
        fun q hq => h q (List.mem_cons_of_mem p hq)
      show expandOne p ∪ expand_permissions ps = specExpandOne p ∪ specExpand ps
      rw [expandOne_wf_eq p hp, ih hps]

/-! ## Claim theorems: pattern expansion -/

/-- C3: for every set of permission patterns over the known resource and
action universes, the source's expansion equals the spec's description of
it (cross product for `*.*`, all known actions for `r.*`, all known
resources for `*.a`, any other literal verbatim, duplicates collapsing in
the result set); and concretely the expansion of `["*.view", "orders.*"]`
contains `orders.create` and `products.view` but not `products.edit`. -/
theorem expansion_matches_spec :
    (∀ ps : List String, (∀ p ∈ ps, WellFormedPattern p) →
        expand_permissions ps = specExpand ps) ∧
    "orders.create" ∈ expand_permissions ["*.view", "orders.*"] ∧
    "products.view" ∈ expand_permissions ["*.view", "orders.*"] ∧
    "products.edit" ∉ expand_permissions ["*.view", "orders.*"] :=
  ⟨expand_eq_spec, by decide, by decide, by decide⟩

/-- C3 witness: the refinement applied to the concrete pattern list
`["*.view", "orders.*"]`, whose patterns are all well formed. -/
theorem expansion_matches_spec_witness :
    (∀ p ∈ ["*.view", "orders.*"], WellFormedPattern p) ∧
    expand_permissions ["*.view", "orders.*"] = specExpand ["*.view", "orders.*"] :=
  ⟨by decide, expansion_matches_spec.1 ["*.view", "orders.*"] (by decide)⟩

/-- C9: pattern expansion is idempotent — applying the expansion loop to
the set produced by a first expansion returns that set unchanged, because
every produced string is a concrete literal that re-expands verbatim to
itself. -/
theorem expansion_idempotent (ps : List String) :
    expandSet (expand_permissions ps) = expand_permissions ps := by
  ext x
  simp only [expandSet, Finset.mem_biUnion]
  constructor
  · rintro ⟨y, hy, hxy⟩
    rcases (mem_expand_permissions y ps).mp hy with ⟨p, _, hyp⟩
    rw [expandOne_self_of_mem hyp, Finset.mem_singleton] at hxy
    subst hxy
    exact hy
  · intro hx
    rcases (mem_expand_permissions x ps).mp hx with ⟨p, _, hxp⟩
    exact ⟨x, hx, by rw [expandOne_self_of_mem hxp]; exact Finset.mem_singleton_self x⟩

/-- C9 witness: idempotence at the concrete Sales-like pattern list. -/
theorem expansion_idempotent_witness :
    expandSet (expand_permissions ["*.view", "orders.*"]) =
      expand_permissions ["*.view", "orders.*"] :=
  expansion_idempotent ["*.view", "orders.*"]

/-! ## Lemmas about the role table and the permission decision -/

/-- A role name whose lower-casing is `admin` but which is not exactly
`Admin` is absent from the configuration table, so its permission set is
empty. -/
theorem get_role_permissions_empty_of_lower_admin (r : String)
    (hl : strToLower r = "admin") (hne : r ≠ "Admin") :
    get_role_permissions r = ∅ := by
  have hfind : ROLE_PERMISSIONS.find? (fun rp => rp.1 == r) = none := by
    rw [List.find?_eq_none]
    intro x hx
    simp only [ROLE_PERMISSIONS, List.mem_cons, List.not_mem_nil, or_false] at hx
    rcases hx with rfl | rfl | rfl | rfl
    · simp only [beq_iff_eq]
      exact fun h => hne h.symm
    · simp only [beq_iff_eq]
      rintro rfl
      exact absurd hl (by decide)
    · simp only [beq_iff_eq]
      rintro rfl
      exact absurd hl (by decide)
    · simp only [beq_iff_eq]
      rintro rfl
      exact absurd hl (by decide)
  simp [get_role_permissions, hfind]

/-- The permission check always allows the exact role name `Admin`. -/
theorem grants_admin_all (p : String) : grants "Admin" p = true := by
  simp [grants]

/-! ## Claim theorems: the Admin special case and the fuzzy gate -/

/-- C1 counterexample: `ADMIN` case-normalizes to exactly `admin`, yet the
permission check denies it (the short-circuit at permissions.py line 110
is a case-sensitive comparison with `Admin`, and `ADMIN` has no entry in
the pattern table). -/
theorem admin_case_insensitive_counterexample :
    strToLower "ADMIN" = "admin" ∧ strToLower "admin" = "admin" ∧
    grants "ADMIN" "users.view" = false ∧
    grants "admin" "users.view" = false := by decide

/-- C1 amended: the unconditional grant applies only to the exact stored
role name `Admin`; any other role name whose case normalization is
`admin` is absent from the pattern table and is denied every
permission. -/
theorem admin_short_circuit_exact :
    (∀ p, grants "Admin" p = true) ∧
    (∀ r p, strToLower r = "admin" → r ≠ "Admin" → grants r p = false) := by
  refine ⟨grants_admin_all, fun r p hl hne => ?_⟩
  have hbe : (r == "Admin") = false := beq_eq_false_iff_ne.mpr hne
  have hempty := get_role_permissions_empty_of_lower_admin r hl hne
  simp [grants, hbe, hempty]

/-- C1 amended witness: the exact name is allowed, a case variant is
denied. -/
theorem admin_short_circuit_exact_witness :
    grants "Admin" "users.view" = true ∧
    (strToLower "aDmIn" = "admin" ∧ "aDmIn" ≠ "Admin" ∧
      grants "aDmIn" "users.view" = false) :=
  ⟨admin_short_circuit_exact.1 "users.view",
   by decide, by decide,
   admin_short_circuit_exact.2 "aDmIn" "users.view" (by decide) (by decide)⟩

/-- C4: the exact role name `Admin` is granted every permission string —
including `payments.edit`, which names a known resource yet lies outside
the expansion of the Admin role's declared pattern list — so the grant
does not depend on the declared patterns. -/
theorem admin_grants_everything :
    (∀ p, grants "Admin" p = true) ∧
    "payments.edit" ∈ all_permissions ∧
    "payments.edit" ∉ get_role_permissions "Admin" :=
  ⟨grants_admin_all, by decide, by decide⟩

/-- C4 witness: the Admin grant at the very permission outside the
declared expansion. -/
theorem admin_grants_everything_witness :
    grants "Admin" "payments.edit" = true :=
  admin_grants_everything.1 "payments.edit"

/-- The permission set of a role name absent from the configuration table
is empty (helper for the fail-closed facts of C8). -/
theorem grants_all_false_of_no_perms (r : String)
    (hbe : (r == "Admin") = false)
    (hempty : get_role_permissions r = ∅) :
    ∀ p, grants r p = false := by
  intro p
  simp [grants, hbe, hempty]

/-- C8: the coarse fuzzy administrator gate (currencies/routes.py line 62)
accepts exactly the names `Admin`, `Administrator` and `Admininstrator`,
while the fine-grained check short-circuits only on the exact name
`Admin`; a role named `Administrator` — or one absent from the pattern
table such as `NoSuchRole` — is denied every permission by the
fine-grained check even though the coarse gate classifies
`Administrator` as administrator-equivalent. -/
theorem fuzzy_gate_vs_exact_check :
    (∀ n, isAdminFuzzy n = true ↔
      (n = "Admin" ∨ n = "Administrator" ∨ n = "Admininstrator")) ∧
    isAdminFuzzy "Administrator" = true ∧
    (∀ p, grants "Administrator" p = false) ∧
    (∀ p, grants "NoSuchRole" p = false) ∧
    (∀ p, grants "Admin" p = true) := by
  refine ⟨?_, by decide, ?_, ?_, grants_admin_all⟩
  · intro n
    simp [isAdminFuzzy, List.contains_cons, Bool.or_eq_true, beq_iff_eq,
      List.contains_nil]
  · exact grants_all_false_of_no_perms "Administrator" (by decide) (by decide)
  · exact grants_all_false_of_no_perms "NoSuchRole" (by decide) (by decide)

/-- C8 witness: the two code paths disagree at the concrete role name
`Administrator`. -/
theorem fuzzy_gate_vs_exact_check_witness :
    isAdminFuzzy "Administrator" = true ∧
    grants "Administrator" "users.view" = false ∧
    grants "NoSuchRole" "x.y" = false :=
  ⟨fuzzy_gate_vs_exact_check.2.1,
   fuzzy_gate_vs_exact_check.2.2.1 "users.view",
   fuzzy_gate_vs_exact_check.2.2.2.1 "x.y"⟩

/-! ## Lemmas about the reconciliation update path -/

/-- The email-update block touches no field but the email. -/
theorem updateEmailStep_frame (u : User) (e : String) :
    (updateEmailStep u e).id = u.id ∧ (updateEmailStep u e).name = u.name ∧
    (updateEmailStep u e).password_hash = u.password_hash ∧
    (updateEmailStep u e).google_sso_id = u.google_sso_id ∧
    (updateEmailStep u e).role = u.role ∧
    (updateEmailStep u e).currency_context = u.currency_context ∧
    (updateEmailStep u e).is_active = u.is_active := by
  unfold updateEmailStep
  split <;> simp

/-- The link block touches no field but the Google SSO id. -/
theorem linkSsoStep_frame (u : User) (g : Option String) :
    (linkSsoStep u g).id = u.id ∧ (linkSsoStep u g).name = u.name ∧
    (linkSsoStep u g).password_hash = u.password_hash ∧
    (linkSsoStep u g).email = u.email ∧
    (linkSsoStep u g).role = u.role ∧
    (linkSsoStep u g).currency_context = u.currency_context ∧
    (linkSsoStep u g).is_active = u.is_active := by
  unfold linkSsoStep
  split <;> simp

/-- The reactivation block touches no field but the active flag. -/
theorem reactivateStep_frame (u : User) :
    (reactivateStep u).id = u.id ∧ (reactivateStep u).name = u.name ∧
    (reactivateStep u).password_hash = u.password_hash ∧
    (reactivateStep u).email = u.email ∧
    (reactivateStep u).google_sso_id = u.google_sso_id ∧
    (reactivateStep u).role = u.role ∧
    (reactivateStep u).currency_context = u.currency_context := by
  unfold reactivateStep
  split <;> simp

/-- After the reactivation block the account is always active. -/
theorem reactivateStep_active (u : User) : (reactivateStep u).is_active = true := by
  unfold reactivateStep
  split
  · rfl
  · rename_i h
    simpa using h

/-- `_update_user_sso_data` always returns an active account. -/
theorem updateUserSsoData_active (u : User) (e : String) (g : Option String) :
    (updateUserSsoData u e g).is_active = true :=
  reactivateStep_active _

/-- On an account with no truthy SSO id, the email-update block is a
no-op. -/
theorem updateEmailStep_skip (u : User) (e : String)
    (h : pyTruthyOpt u.google_sso_id = false) : updateEmailStep u e = u := by
  unfold updateEmailStep
  simp [h]

/-- On an account with no truthy SSO id and a truthy asserted id, the
link block attaches the asserted id. -/
theorem linkSsoStep_links (u : User) (g : Option String)
    (h1 : pyTruthyOpt u.google_sso_id = false) (h2 : pyTruthyOpt g = true) :
    linkSsoStep u g = { u with google_sso_id := g } := by
  unfold linkSsoStep
  simp [h1, h2]

/-- `_update_user_sso_data` never changes id, name, password, role, or
currency preference. -/
theorem updateUserSsoData_frame (u : User) (e : String) (g : Option String) :
    (updateUserSsoData u e g).id = u.id ∧
    (updateUserSsoData u e g).name = u.name ∧
    (updateUserSsoData u e g).password_hash = u.password_hash ∧
    (updateUserSsoData u e g).role = u.role ∧
    (updateUserSsoData u e g).currency_context = u.currency_context := by
  unfold updateUserSsoData
  have h1 := updateEmailStep_frame u e
  have h2 := linkSsoStep_frame (updateEmailStep u e) g
  have h3 := reactivateStep_frame (linkSsoStep (updateEmailStep u e) g)
  refine ⟨?_, ?_, ?_, ?_, ?_⟩
  · rw [h3.1, h2.1, h1.1]
  · rw [h3.2.1, h2.2.1, h1.2.1]
  · rw [h3.2.2.1, h2.2.2.1, h1.2.2.1]
  · rw [h3.2.2.2.2.2.1, h2.2.2.2.2.1, h1.2.2.2.2.1]
  · rw [h3.2.2.2.2.2.2, h2.2.2.2.2.2.1, h1.2.2.2.2.2.1]

/-- When the email search succeeds, the lookup returns its result and the
provider-id search is never consulted. -/
theorem findUser_of_email_found (store : List User) (email : String)
    (g : Option String) (u : User)
    (h : store.find? (fun v => v.email == email) = some u) :
    findUserByEmailThenSso store email g = some u := by
  simp [findUserByEmailThenSso, h]

/-- When the email search fails, the lookup falls back to the provider-id
search, and only when the asserted id is truthy. -/
theorem findUser_of_email_none (store : List User) (email : String)
    (g : Option String)
    (h : store.find? (fun v => v.email == email) = none) :
    findUserByEmailThenSso store email g =
      (if pyTruthyOpt g then store.find? (fun v => v.google_sso_id == g)
       else none) := by
  simp [findUserByEmailThenSso, h]

/-- The update path of `process_google_auth`: a found account is passed
through `_update_user_sso_data` and returned (the final activation check
passes because the update path always reactivates). -/
theorem process_update_path (a : Assertion) (store : List User)
    (dr : Option Role) (dc : String) (n : Nat) (e : String) (u : User)
    (he : a.email = some e) (hne : e ≠ "")
    (hf : findUserByEmailThenSso store e a.sub = some u) :
    processGoogleAuth a store dr dc n =
      .ok (updateUserSsoData u e a.sub,
           store.map (fun v =>
             if v.id == u.id then updateUserSsoData u e a.sub else v)) := by
  rcases a with ⟨sub, emailc, namec⟩
  simp only at he hf
  subst he
  simp [processGoogleAuth, hne, hf, updateUserSsoData_active]

/-- The creation path of `process_google_auth`: when neither lookup finds
an account, exactly one new account is appended to the store and
returned. -/
theorem process_create_path (a : Assertion) (store : List User)
    (dr : Option Role) (dc : String) (n : Nat) (e : String)
    (he : a.email = some e) (hne : e ≠ "")
    (hf : findUserByEmailThenSso store e a.sub = none) :
    processGoogleAuth a store dr dc n =
      .ok (createSsoUser e (resolveName a.name a.email) a.sub dr dc n,
           store ++ [createSsoUser e (resolveName a.name a.email) a.sub dr dc n]) := by
  rcases a with ⟨sub, emailc, namec⟩
  simp only at he hf
  subst he
  simp [processGoogleAuth, hne, hf, createSsoUser]

/-- Every run of `process_google_auth` either rejects the assertion as a
bad request or returns an active account. -/
theorem process_result (a : Assertion) (store : List User) (dr : Option Role)
    (dc : String) (n : Nat) :
    processGoogleAuth a store dr dc n = .error .badRequest ∨
    ∃ v st, processGoogleAuth a store dr dc n = .ok (v, st) ∧
      v.is_active = true := by
  rcases ha : a with ⟨sub, emailc, namec⟩
  cases emailc with
  | none => exact Or.inl rfl
  | some e =>
      by_cases hne : e = ""
      · left
        simp [processGoogleAuth, hne]
      · cases hf : findUserByEmailThenSso store e sub with
        | none =>
            right
            exact ⟨_, _, process_create_path ⟨sub, some e, namec⟩ store dr dc n e
              rfl hne hf, rfl⟩
        | some w =>
            right
            exact ⟨_, _, process_update_path ⟨sub, some e, namec⟩ store dr dc n e w
              rfl hne hf, updateUserSsoData_active w e sub⟩

/-- An account returned by `process_google_auth` is always active. -/
theorem process_ok_active (a : Assertion) (store : List User) (dr : Option Role)
    (dc : String) (n : Nat) (u : User) (st : List User)
    (h : processGoogleAuth a store dr dc n = .ok (u, st)) :
    u.is_active = true := by
  rcases process_result a store dr dc n with hbad | ⟨v, st2, hok, hact⟩
  · rw [h] at hbad
    exact absurd hbad (by simp)
  · rw [h] at hok
    have : v = u := by
      have h2 := (Except.ok.injEq _ _).mp hok
      exact ((Prod.mk.injEq _ _ _ _).mp h2).1.symm
    rw [← this]
    exact hact

/-- `process_google_auth` never fails with a conflict error. -/
theorem process_never_conflict (a : Assertion) (store : List User)
    (dr : Option Role) (dc : String) (n : Nat) :
    processGoogleAuth a store dr dc n ≠ .error .conflict := by
  rcases process_result a store dr dc n with hbad | ⟨v, st2, hok, _⟩
  · rw [hbad]
    simp
  · rw [hok]
    simp

/-! ## Claim theorems: identity reconciliation -/

/-- C2 counterexample: a store in which the email search and the
provider-id search find two different accounts; reconciliation does not
fail with a conflict error — it silently prefers the email match and
links the asserted provider id to it. -/
theorem ambiguous_identity_counterexample :
    [alice, bob].find? (fun v => v.email == "a@x.com") = some alice ∧
    [alice, bob].find? (fun v => v.google_sso_id == some "g-1") = some bob ∧
    alice ≠ bob ∧
    processGoogleAuth googleAssertion [alice, bob] none "SGD" 3 =
      .ok ({ alice with google_sso_id := some "g-1" },
           [{ alice with google_sso_id := some "g-1" }, bob]) := by decide

/-- C2 amended: the lookup order is email first, with the provider-id
lookup performed only when the email lookup found nothing (and the
asserted id is truthy); when both lookups would find different accounts,
reconciliation does not fail — no run ever produces a conflict error, the
email match silently wins. -/
theorem lookup_precedence_no_conflict :
    (∀ a store dr dc n, processGoogleAuth a store dr dc n ≠ .error .conflict) ∧
    (∀ store email g u, store.find? (fun v => v.email == email) = some u →
        findUserByEmailThenSso store email g = some u) ∧
    (∀ store email g, store.find? (fun v => v.email == email) = none →
        findUserByEmailThenSso store email g =
          (if pyTruthyOpt g then store.find? (fun v => v.google_sso_id == g)
           else none)) :=
  ⟨process_never_conflict, findUser_of_email_found, findUser_of_email_none⟩

/-- C2 witness: the email-precedence conjunct at the two-account store. -/
theorem lookup_precedence_no_conflict_witness :
    [alice, bob].find? (fun v => v.email == "a@x.com") = some alice ∧
    findUserByEmailThenSso [alice, bob] "a@x.com" (some "g-1") = some alice :=
  ⟨by decide,
   lookup_precedence_no_conflict.2.1 [alice, bob] "a@x.com" (some "g-1") alice
     (by decide)⟩

/-- C5: when the email lookup finds an account with no truthy provider id
linked and the assertion carries a truthy provider id, reconciliation
succeeds, links that id to the account, and leaves the stored email
unchanged. -/
theorem email_match_links_id_keeps_email (a : Assertion) (store : List User)
    (dr : Option Role) (dc : String) (n : Nat) (e : String) (u : User)
    (he : a.email = some e) (hne : e ≠ "")
    (hfe : store.find? (fun v => v.email == e) = some u)
    (hsso : pyTruthyOpt u.google_sso_id = false)
    (hsub : pyTruthyOpt a.sub = true) :
    ∃ st, processGoogleAuth a store dr dc n =
        .ok (updateUserSsoData u e a.sub, st) ∧
      (updateUserSsoData u e a.sub).google_sso_id = a.sub ∧
      (updateUserSsoData u e a.sub).email = u.email := by
  have hf := findUser_of_email_found store e a.sub u hfe
  refine ⟨_, process_update_path a store dr dc n e u he hne hf, ?_, ?_⟩
  · unfold updateUserSsoData
    rw [updateEmailStep_skip u e hsso, linkSsoStep_links u a.sub hsso hsub,
      (reactivateStep_frame _).2.2.2.2.1]
  · unfold updateUserSsoData
    rw [updateEmailStep_skip u e hsso, linkSsoStep_links u a.sub hsso hsub,
      (reactivateStep_frame _).2.2.2.1]

/-- C5 witness: the unlinked account `alice` receives the asserted id and
keeps her email. -/
theorem email_match_links_id_keeps_email_witness :
    [alice].find? (fun v => v.email == "a@x.com") = some alice ∧
    pyTruthyOpt alice.google_sso_id = false ∧
    pyTruthyOpt googleAssertion.sub = true ∧
    (∃ st, processGoogleAuth googleAssertion [alice] none "SGD" 5 =
        .ok (updateUserSsoData alice "a@x.com" googleAssertion.sub, st) ∧
      (updateUserSsoData alice "a@x.com" googleAssertion.sub).google_sso_id =
        googleAssertion.sub ∧
      (updateUserSsoData alice "a@x.com" googleAssertion.sub).email =
        alice.email) :=
  ⟨by decide, by decide, by decide,
   email_match_links_id_keeps_email googleAssertion [alice] none "SGD" 5
     "a@x.com" alice rfl (by decide) (by decide) (by decide) (by decide)⟩

/-- C6: when neither the email nor the provider id matches any stored
account, reconciliation appends exactly one new account to the store and
returns it, with email and display name from the assertion, the provider
id attached, active set, the configured default role attached (`none`
when default-role resolution failed — the account is then created
roleless), and the default currency. -/
theorem create_new_account (a : Assertion) (store : List User)
    (dr : Option Role) (dc : String) (n : Nat) (e : String) (nm : String)
    (he : a.email = some e) (hne : e ≠ "") (hnm : a.name = some nm)
    (hfe : store.find? (fun v => v.email == e) = none)
    (hfs : store.find? (fun v => v.google_sso_id == a.sub) = none) :
    ∃ u, processGoogleAuth a store dr dc n = .ok (u, store ++ [u]) ∧
      u.email = e ∧ u.name = nm ∧ u.google_sso_id = a.sub ∧
      u.is_active = true ∧ u.role = dr ∧ u.currency_context = dc := by
  have hf : findUserByEmailThenSso store e a.sub = none := by
    rw [findUser_of_email_none store e a.sub hfe]
    split
    · exact hfs
    · rfl
  refine ⟨_, process_create_path a store dr dc n e he hne hf,
    rfl, ?_, rfl, rfl, rfl, rfl⟩
  show resolveName a.name a.email = nm
  rw [hnm]
  rfl

/-- C6 witness: creation against the empty store, once with a resolved
default role and once with failed default-role resolution. -/
theorem create_new_account_witness :
    (∃ u, processGoogleAuth googleAssertion [] (some roleUser) "SGD" 1 =
        .ok (u, [] ++ [u]) ∧
      u.email = "a@x.com" ∧ u.name = "Alice G" ∧
      u.google_sso_id = googleAssertion.sub ∧ u.is_active = true ∧
      u.role = some roleUser ∧ u.currency_context = "SGD") ∧
    (∃ u, processGoogleAuth googleAssertion [] none "SGD" 1 =
        .ok (u, [] ++ [u]) ∧
      u.email = "a@x.com" ∧ u.name = "Alice G" ∧
      u.google_sso_id = googleAssertion.sub ∧ u.is_active = true ∧
      u.role = none ∧ u.currency_context = "SGD") :=
  ⟨create_new_account googleAssertion [] (some roleUser) "SGD" 1 "a@x.com"
     "Alice G" rfl (by decide) rfl rfl rfl,
   create_new_account googleAssertion [] none "SGD" 1 "a@x.com"
     "Alice G" rfl (by decide) rfl rfl rfl⟩

/-- C7: reconciliation never returns an inactive account (an inactive
result would be rejected with a forbidden error), and finding an existing
inactive account reactivates it and still succeeds. -/
theorem reconcile_never_inactive :
    (∀ a store dr dc n u st, processGoogleAuth a store dr dc n = .ok (u, st) →
        u.is_active = true) ∧
    (∀ a store dr dc n e u, a.email = some e → e ≠ "" →
        findUserByEmailThenSso store e a.sub = some u → u.is_active = false →
        ∃ st, processGoogleAuth a store dr dc n =
            .ok (updateUserSsoData u e a.sub, st) ∧
          (updateUserSsoData u e a.sub).is_active = true) :=
  ⟨fun a store dr dc n u st h => process_ok_active a store dr dc n u st h,
   fun a store dr dc n e u he hne hf _ =>
     ⟨_, process_update_path a store dr dc n e u he hne hf,
      updateUserSsoData_active u e a.sub⟩⟩

/-- C7 witness: reconciling against the inactive `alice` succeeds with an
active account. -/
theorem reconcile_never_inactive_witness :
    findUserByEmailThenSso [aliceInactive] "a@x.com" googleAssertion.sub =
      some aliceInactive ∧
    aliceInactive.is_active = false ∧
    (∃ st, processGoogleAuth googleAssertion [aliceInactive] none "SGD" 5 =
        .ok (updateUserSsoData aliceInactive "a@x.com" googleAssertion.sub, st) ∧
      (updateUserSsoData aliceInactive "a@x.com" googleAssertion.sub).is_active =
        true) :=
  ⟨by decide, by decide,
   reconcile_never_inactive.2 googleAssertion [aliceInactive] none "SGD" 5
     "a@x.com" aliceInactive rfl (by decide) (by decide) (by decide)⟩

/-- C10: on the update path the only fields reconciliation can modify are
the email, the provider id and the active flag — id, display name,
password credential, role and preferred currency are unchanged, both for
`_update_user_sso_data` itself and for any successful reconciliation that
found an existing account. -/
theorem update_path_frame :
    (∀ u e g, (updateUserSsoData u e g).id = u.id ∧
      (updateUserSsoData u e g).name = u.name ∧
      (updateUserSsoData u e g).password_hash = u.password_hash ∧
      (updateUserSsoData u e g).role = u.role ∧
      (updateUserSsoData u e g).currency_context = u.currency_context) ∧
    (∀ a store dr dc n e u u2 st, a.email = some e → e ≠ "" →
      findUserByEmailThenSso store e a.sub = some u →
      processGoogleAuth a store dr dc n = .ok (u2, st) →
      u2.id = u.id ∧ u2.name = u.name ∧ u2.password_hash = u.password_hash ∧
      u2.role = u.role ∧ u2.currency_context = u.currency_context) := by
  refine ⟨updateUserSsoData_frame, ?_⟩
  intro a store dr dc n e u u2 st he hne hf hok
  have hpath := process_update_path a store dr dc n e u he hne hf
  rw [hok] at hpath
  have h2 := (Except.ok.injEq _ _).mp hpath
  have hu : u2 = updateUserSsoData u e a.sub := ((Prod.mk.injEq _ _ _ _).mp h2).1
  rw [hu]
  exact updateUserSsoData_frame u e a.sub

/-- C10 witness: the frame at the concrete account `alice`. -/
theorem update_path_frame_witness :
    (updateUserSsoData alice "a@x.com" (some "g-1")).id = alice.id ∧
    (updateUserSsoData alice "a@x.com" (some "g-1")).name = alice.name ∧
    (updateUserSsoData alice "a@x.com" (some "g-1")).password_hash =
      alice.password_hash ∧
    (updateUserSsoData alice "a@x.com" (some "g-1")).role = alice.role ∧
    (updateUserSsoData alice "a@x.com" (some "g-1")).currency_context =
      alice.currency_context :=
  update_path_frame.1 alice "a@x.com" (some "g-1")

end AdaMedical
